import Mathlib

/-!
Shallow embedding of the storage core of the Stalwart mail server and proofs
about it.  The embedded code comes from two source files:

- `crates/store/src/lib.rs`: the `Value`/`Row` model, `QueryResult` adapter
  implementations, subspace tag constants, and `LookupKey`;
- `crates/directory/src/core/cache.rs`: the TTL-based positive/negative
  `LookupCache` and the `CachedDirectory` configuration wrapper.

Machine integers are modelled as `Nat`/`Int` with explicit reduction
modulo `2 ^ w` where overflow matters.  `Instant` is modelled as a `Nat`
clock value passed explicitly to the stateful cache operations.  A Rust
`unreachable!()` panic is modelled by returning `none`.
-/

set_option maxRecDepth 4000

namespace StalwartStore

/-- The universal cell type `Value` from `crates/store/src/lib.rs`.
`Integer(i64)` is modelled as `Int`, `Float(f64)` as Lean `Float`,
`Text` as `String`, `Blob` as a byte list. -/
inductive Value where
  | integer : Int → Value
  | bool : Bool → Value
  | float : Float → Value
  | text : String → Value
  | blob : List Nat → Value
  | null : Value

/-- Textual form of a blob: Rust `String::from_utf8_lossy`.  Modelled
abstractly at the codepoint level elsewhere; for `into_string` we only need
totality, so we render the raw bytes.  (No claim depends on the exact text
of a blob cell.) -/
def blobToString (bs : List Nat) : String :=
  String.intercalate "," (bs.map (fun b => toString b))

/-- Embedding of `Value::into_string` (`crates/store/src/lib.rs`, lines
591-602): every variant has a canonical textual form, `Null` maps to the
empty string.  Total by construction. -/
def Value.into_string : Value → String
  | .text s => s
  | .integer i => toString i
  | .bool b => toString b
  | .float f => toString f
  | .blob b => blobToString b
  | .null => ""

/-- Discriminator for the `Integer` variant. -/
def Value.isInteger : Value → Bool
  | .integer _ => true
  | _ => false

/-- Rust `v as u32` applied to an `i64` value: truncation to the low 32
bits, i.e. reduction modulo `2 ^ 32` (negative values wrap around). -/
def i64AsU32 (v : Int) : Nat :=
  (v % 4294967296).toNat

/-- A `Row` is an ordered sequence of cells (`crates/store/src/lib.rs`,
lines 376-379). -/
structure Row where
  values : List Value

/-- `Rows` is a sequence of rows. -/
structure Rows where
  rows : List Row

/-- `NamedRows` additionally carries column names. -/
structure NamedRows where
  names : List String
  rows : List Row

/-- Embedding of `impl From<Row> for Vec<String>` (lines 604-608): one
string per cell, via `into_string`. -/
def Row.toStringVec (r : Row) : List String :=
  r.values.map (fun v => v.into_string)

/-- Embedding of `impl From<Row> for Vec<u32>` (lines 610-624): keep the
`Integer` cells, cast with `as u32`; drop every other variant
(`filter_map`). -/
def Row.toU32Vec (r : Row) : List Nat :=
  r.values.filterMap (fun v =>
    match v with
    | .integer i => some (i64AsU32 i)
    | _ => none)

/-- Embedding of `impl From<Rows> for Vec<String>` (lines 626-634). -/
def Rows.toStringVec (rs : Rows) : List String :=
  rs.rows.flatMap (fun r => r.values.map (fun v => v.into_string))

/-- Embedding of `impl From<Rows> for Vec<u32>` (lines 636-652). -/
def Rows.toU32Vec (rs : Rows) : List Nat :=
  rs.rows.flatMap (fun r =>
    r.values.filterMap (fun v =>
      match v with
      | .integer i => some (i64AsU32 i)
      | _ => none))

/-- Subspace tag constant `b'b'` (`crates/store/src/lib.rs`, line 176). -/
def SUBSPACE_BITMAPS : Nat := 98

/-- Subspace tag constant `b'v'` (line 177). -/
def SUBSPACE_VALUES : Nat := 118

/-- Subspace tag constant `b'l'` (line 178). -/
def SUBSPACE_LOGS : Nat := 108

/-- Subspace tag constant `b'i'` (line 179). -/
def SUBSPACE_INDEXES : Nat := 105

/-- Subspace tag constant `b't'` (line 180). -/
def SUBSPACE_BLOBS : Nat := 116

/-- Subspace tag constant `b'c'` (line 181). -/
def SUBSPACE_COUNTERS : Nat := 99

/-- The six subspace tags as a list, in source declaration order. -/
def subspaceTags : List Nat :=
  [SUBSPACE_BITMAPS, SUBSPACE_VALUES, SUBSPACE_LOGS,
   SUBSPACE_INDEXES, SUBSPACE_BLOBS, SUBSPACE_COUNTERS]

/-- Modelled from the spec: the `Key::serialize` implementations are not in
the provided sources (only the trait and the flag constants are); per the
spec, serializing with the `WITH_SUBSPACE` flag includes the fixed one-byte
subspace tag as the leading byte, followed by the key's field bytes. -/
def serializeWithSubspace (tag : Nat) (fieldBytes : List Nat) : List Nat :=
  tag :: fieldBytes

/-- The four query intents (`enum QueryType`, lines 392-398). -/
inductive QueryType where
  | execute
  | queryExists
  | queryAll
  | queryOne
deriving DecidableEq

/-- The capabilities supplied by a `impl IntoRows` argument: what
`into_row`, `into_rows` and `into_named_rows` would return on it. -/
structure IntoRowsData where
  into_row : Option Row
  into_rows : Rows
  into_named_rows : NamedRows

/-- One implementation of the `QueryResult` trait (lines 400-407) for a
result type `α`.  Each conversion returns `Option α`: `some` is a normal
return, `none` models a `unreachable!()` panic (divergence, not a
recoverable error value). -/
structure QueryResultImpl (α : Type) where
  from_exec : Nat → Option α
  from_exists : Bool → Option α
  from_query_one : IntoRowsData → Option α
  from_query_all : IntoRowsData → Option α
  query_type : QueryType

/-- Embedding of `impl QueryResult for Option<Row>` (lines 415-435). -/
def optionRowQueryResult : QueryResultImpl (Option Row) where
  query_type := .queryOne
  from_exec := fun _ => none
  from_exists := fun _ => none
  from_query_all := fun _ => none
  from_query_one := fun items => some items.into_row

/-- Embedding of `impl QueryResult for Rows` (lines 437-457). -/
def rowsQueryResult : QueryResultImpl Rows where
  query_type := .queryAll
  from_exec := fun _ => none
  from_exists := fun _ => none
  from_query_all := fun items => some items.into_rows
  from_query_one := fun _ => none

/-- Embedding of `impl QueryResult for NamedRows` (lines 459-479). -/
def namedRowsQueryResult : QueryResultImpl NamedRows where
  query_type := .queryAll
  from_exec := fun _ => none
  from_exists := fun _ => none
  from_query_all := fun items => some items.into_named_rows
  from_query_one := fun _ => none

/-- Embedding of `impl QueryResult for bool` (lines 481-501). -/
def boolQueryResult : QueryResultImpl Bool where
  query_type := .queryExists
  from_exec := fun _ => none
  from_exists := fun e => some e
  from_query_all := fun _ => none
  from_query_one := fun _ => none

/-- Embedding of `impl QueryResult for usize` (lines 503-523). -/
def usizeQueryResult : QueryResultImpl Nat where
  query_type := .execute
  from_exec := fun items => some items
  from_exists := fun _ => none
  from_query_all := fun _ => none
  from_query_one := fun _ => none

/-- The lookup-store key (`enum LookupKey`, lines 328-332): a plain key or
a counter key, each carrying a byte sequence. -/
inductive LookupKey where
  | key : List Nat → LookupKey
  | counter : List Nat → LookupKey

/-- Is `b` a UTF-8 continuation byte (`10xxxxxx`)? -/
def utf8IsCont (b : Nat) : Bool :=
  128 ≤ b && b < 192

/-- Valid range check for the second byte of a 3-byte UTF-8 sequence with
lead byte `b1` (overlong and surrogate encodings excluded, as in Rust's
`core::str` validation). -/
def utf8Cont3Valid (b1 b2 : Nat) : Bool :=
  if b1 = 224 then 160 ≤ b2 && b2 < 192
  else if b1 = 237 then 128 ≤ b2 && b2 < 160
  else utf8IsCont b2

/-- Valid range check for the second byte of a 4-byte UTF-8 sequence with
lead byte `b1` (overlong and beyond-U+10FFFF encodings excluded). -/
def utf8Cont4Valid (b1 b2 : Nat) : Bool :=
  if b1 = 240 then 144 ≤ b2 && b2 < 192
  else if b1 = 244 then 128 ≤ b2 && b2 < 144
  else utf8IsCont b2

/-- One step of the UTF-8 decoding automaton, applied to a lead byte `b1`
and the remaining bytes `t1`.  Returns `(ok, scalar, rest)`: `ok` is false
when the maximal subsequence starting at `b1` is invalid, in which case
`scalar` is the replacement character U+FFFD (65533) and `rest` resumes
right after the maximal invalid subsequence. -/
def utf8Step (b1 : Nat) (t1 : List Nat) : Bool × Nat × List Nat :=
  if b1 < 128 then (true, b1, t1)
  else if 194 ≤ b1 && b1 < 224 then
    match t1 with
    | b2 :: t2 =>
      if utf8IsCont b2 then (true, (b1 - 192) * 64 + (b2 - 128), t2)
      else (false, 65533, t1)
    | [] => (false, 65533, [])
  else if 224 ≤ b1 && b1 < 240 then
    match t1 with
    | b2 :: t2 =>
      if utf8Cont3Valid b1 b2 then
        match t2 with
        | b3 :: t3 =>
          if utf8IsCont b3 then
            (true, (b1 - 224) * 4096 + (b2 - 128) * 64 + (b3 - 128), t3)
          else (false, 65533, t2)
        | [] => (false, 65533, [])
      else (false, 65533, t1)
    | [] => (false, 65533, [])
  else if 240 ≤ b1 && b1 < 245 then
    match t1 with
    | b2 :: t2 =>
      if utf8Cont4Valid b1 b2 then
        match t2 with
        | b3 :: t3 =>
          if utf8IsCont b3 then
            match t3 with
            | b4 :: t4 =>
              if utf8IsCont b4 then
                (true,
                  (b1 - 240) * 262144 + (b2 - 128) * 4096 +
                    (b3 - 128) * 64 + (b4 - 128), t4)
              else (false, 65533, t3)
            | [] => (false, 65533, [])
          else (false, 65533, t2)
        | [] => (false, 65533, [])
      else (false, 65533, t1)
    | [] => (false, 65533, [])
  else (false, 65533, t1)

/-- A decoding step never lengthens the remaining byte list. -/
theorem utf8Step_length (b1 : Nat) (t1 : List Nat) :
    (utf8Step b1 t1).2.2.length ≤ t1.length := by
  unfold utf8Step
  repeat' split
  all_goals simp_all
  all_goals omega

/-- Lossy UTF-8 decoding (Rust `String::from_utf8_lossy`): each maximal
invalid subsequence is replaced by U+FFFD and decoding resumes after it. -/
def utf8DecodeLossy : List Nat → List Nat
  | [] => []
  | b1 :: t1 =>
    (utf8Step b1 t1).2.1 :: utf8DecodeLossy (utf8Step b1 t1).2.2
termination_by l => l.length
decreasing_by
  have := utf8Step_length b1 t1
  simp
  omega

/-- Strict UTF-8 decoding of a byte sequence to a list of Unicode scalar
values (Rust `String::from_utf8`): `none` on any invalid sequence. -/
def utf8DecodeStrict : List Nat → Option (List Nat)
  | [] => some []
  | b1 :: t1 =>
    if (utf8Step b1 t1).1 then
      (utf8DecodeStrict (utf8Step b1 t1).2.2).map
        (fun cs => (utf8Step b1 t1).2.1 :: cs)
    else none
termination_by l => l.length
decreasing_by
  have := utf8Step_length b1 t1
  simp
  omega

/-- Embedding of `impl From<LookupKey> for String` (lines 366-374): both
variants expose the same byte sequence, which is decoded with
`String::from_utf8` and, on failure, with the lossy decoder
(`unwrap_or_else` on `from_utf8_lossy`).  The resulting text is modelled
as its list of Unicode scalar values.  Total: every byte sequence yields a
result. -/
def lookupKeyToText (k : LookupKey) : List Nat :=
  let key := match k with
    | .key key => key
    | .counter key => key
  match utf8DecodeStrict key with
  | some cs => cs
  | none => utf8DecodeLossy key

/-- Lookup of a key in a recency-ordered association list (first match). -/
def lruLookup {K : Type} [DecidableEq K] : List (K × Nat) → K → Option Nat
  | [], _ => none
  | e :: rest, k => if e.1 = k then some e.2 else lruLookup rest k

/-- Removal of every entry for a key from a recency-ordered association
list. -/
def lruErase {K : Type} [DecidableEq K] : List (K × Nat) → K → List (K × Nat)
  | [], _ => []
  | e :: rest, k => if e.1 = k then lruErase rest k else e :: lruErase rest k

/-- Model of the external `lru_cache::LruCache` used by the directory
cache: a bounded map from keys to `Instant` values with least-recently-used
eviction.  `entries` is ordered most-recently-used first; `capacity` is
fixed at construction.  Per the external crate (and the spec's eviction
policy), `insert` evicts the least-recently-used entry when the size
exceeds the capacity, `get_mut` refreshes an entry's recency, and `remove`
deletes an entry. -/
structure LruCache (K : Type) where
  capacity : Nat
  entries : List (K × Nat)

/-- Constructor `LruCache::with_hasher(capacity, hasher)`: empty cache of
the given capacity (the hasher has no observable effect in the model). -/
def LruCache.with_hasher (K : Type) (capacity : Nat) : LruCache K :=
  { capacity := capacity, entries := [] }

/-- Model of `LruCache::get_mut`: looks the key up and, when present,
moves its entry to the most-recently-used position. -/
def LruCache.get_mut {K : Type} [DecidableEq K] (c : LruCache K) (k : K) :
    Option Nat × LruCache K :=
  match lruLookup c.entries k with
  | some t => (some t, { c with entries := (k, t) :: lruErase c.entries k })
  | none => (none, c)

/-- Model of `LruCache::insert`: inserts (or replaces) the entry at the
most-recently-used position, then evicts the least-recently-used entry if
the size now exceeds the capacity. -/
def LruCache.insert {K : Type} [DecidableEq K] (c : LruCache K) (k : K) (v : Nat) :
    LruCache K :=
  let es := (k, v) :: lruErase c.entries k
  { c with entries := if c.capacity < es.length then es.dropLast else es }

/-- Model of `LruCache::remove`. -/
def LruCache.remove {K : Type} [DecidableEq K] (c : LruCache K) (k : K) : LruCache K :=
  { c with entries := lruErase c.entries k }

/-- Model of `LruCache::clear`. -/
def LruCache.clear {K : Type} (c : LruCache K) : LruCache K :=
  { c with entries := [] }

/-- Membership test: is the key present in the cache? -/
def LruCache.containsKey {K : Type} [DecidableEq K] (c : LruCache K) (k : K) : Bool :=
  (lruLookup c.entries k).isSome

/-- The TTL lookup cache (`crates/directory/src/core/cache.rs`, lines
40-45): two independent bounded LRU structures mapping a key to an
absolute expiry instant, plus the two TTLs.  Durations and instants are
modelled as `Nat`. -/
structure LookupCache (K : Type) where
  cache_pos : LruCache K
  cache_neg : LruCache K
  ttl_pos : Nat
  ttl_neg : Nat

/-- Embedding of `LookupCache::new` (lines 104-111). -/
def LookupCache.new (K : Type) (capacity ttl_pos ttl_neg : Nat) : LookupCache K :=
  { cache_pos := LruCache.with_hasher K capacity
    cache_neg := LruCache.with_hasher K capacity
    ttl_pos := ttl_pos
    ttl_neg := ttl_neg }

/-- The negative-structure half of `LookupCache::get` (lines 127-134 of
`cache.rs`), reached when the positive structure yields no valid entry.
Note the source's line 132: when the negative entry is expired, the code
removes the key from `cache_pos` — not from `cache_neg` — and returns
`None`. -/
def LookupCache.getNeg {K : Type} [DecidableEq K] (c : LookupCache K) (name : K)
    (now : Nat) : Option Bool × LookupCache K :=
  match c.cache_neg.get_mut name with
  | (none, neg1) => (none, { c with cache_neg := neg1 })
  | (some valid_until, neg1) =>
    if now ≤ valid_until then (some false, { c with cache_neg := neg1 })
    else (none, { c with cache_neg := neg1, cache_pos := c.cache_pos.remove name })

/-- Embedding of `LookupCache::get` (lines 113-135): check the positive
structure first; a valid entry yields `Some(true)`, an expired one is
removed from `cache_pos`; then fall through to the negative structure.
`now` stands for `Instant::now()`; the Rust comparison
`*valid_until >= Instant::now()` becomes `now ≤ valid_until`. -/
def LookupCache.get {K : Type} [DecidableEq K] (c : LookupCache K) (name : K)
    (now : Nat) : Option Bool × LookupCache K :=
  match c.cache_pos.get_mut name with
  | (some valid_until, pos1) =>
    if now ≤ valid_until then (some true, { c with cache_pos := pos1 })
    else LookupCache.getNeg { c with cache_pos := pos1.remove name } name now
  | (none, pos1) => LookupCache.getNeg { c with cache_pos := pos1 } name now

/-- Embedding of `LookupCache::insert_pos` (lines 137-139): stamp the
entry with expiry `now + ttl_pos`. -/
def LookupCache.insert_pos {K : Type} [DecidableEq K] (c : LookupCache K) (item : K)
    (now : Nat) : LookupCache K :=
  { c with cache_pos := c.cache_pos.insert item (now + c.ttl_pos) }

/-- Embedding of `LookupCache::insert_neg` (lines 141-143). -/
def LookupCache.insert_neg {K : Type} [DecidableEq K] (c : LookupCache K) (item : K)
    (now : Nat) : LookupCache K :=
  { c with cache_neg := c.cache_neg.insert item (now + c.ttl_neg) }

/-- Embedding of `LookupCache::clear` (lines 145-148). -/
def LookupCache.clearAll {K : Type} (c : LookupCache K) : LookupCache K :=
  { c with cache_pos := c.cache_pos.clear, cache_neg := c.cache_neg.clear }

/-- The directory cache wrapper (`cache.rs`, lines 33-36): one lookup
cache for domains and one for recipient addresses (mutexes erased in the
sequential model). -/
structure CachedDirectory where
  cached_domains : LookupCache String
  cached_rcpts : LookupCache String

/-- Model of the configuration object as seen by `try_from_config`: the
outcome of `config.property((&prefix, subkey))` for each subkey string.
`Except.error` models a parse error propagated by `?`; `Except.ok none`
models an absent key.  Numeric option values and `Duration` values are
both modelled as `Nat` (seconds). -/
structure Config where
  property : String → Except String (Option Nat)

/-- Embedding of `CachedDirectory::try_from_config` (`cache.rs`, lines
48-76).  Note lines 54-59 of the source: both TTLs are read from the key
`"cache.ttl.positive"`; the key `"cache.ttl.negative"` is never consulted.
The defaults are 86400 for the positive TTL and 3600 for the negative
one. -/
def CachedDirectory.try_from_config (config : Config) :
    Except String (Option CachedDirectory) :=
  match config.property "cache.entries" with
  | .error e => .error e
  | .ok none => .ok none
  | .ok (some cached_entries) =>
    match config.property "cache.ttl.positive" with
    | .error e => .error e
    | .ok r1 =>
      let cache_ttl_positive := r1.getD 86400
      match config.property "cache.ttl.positive" with
      | .error e => .error e
      | .ok r2 =>
        let cache_ttl_negative := r2.getD 3600
        .ok (some
          { cached_domains :=
              LookupCache.new String cached_entries cache_ttl_positive cache_ttl_negative
            cached_rcpts :=
              LookupCache.new String cached_entries cache_ttl_positive cache_ttl_negative })

/-- Inserting into an LRU structure with capacity at least 1 makes the
inserted key retrievable: the new entry sits at the most-recently-used
position and the size-driven eviction removes the least-recently-used
entry, never the fresh one. -/
theorem lruLookup_insert_self {K : Type} [DecidableEq K] (c : LruCache K) (k : K)
    (v : Nat) (hcap : 1 ≤ c.capacity) :
    lruLookup (c.insert k v).entries k = some v := by
  unfold LruCache.insert
  by_cases h : c.capacity < ((k, v) :: lruErase c.entries k).length
  · simp only [List.length_cons] at h
    simp only [List.length_cons, h, if_true]
    cases htail : lruErase c.entries k with
    | nil => simp [htail] at h ⊢; omega
    | cons e rest => simp [htail, List.dropLast, lruLookup]
  · simp only [List.length_cons] at h
    simp [h, lruLookup]

/-- A key present and unexpired in the positive structure makes `get`
return `Some(true)`, whatever the negative structure holds. -/
theorem get_of_pos_valid {K : Type} [DecidableEq K] (c : LookupCache K) (k : K)
    (t now : Nat) (hfound : lruLookup c.cache_pos.entries k = some t)
    (hvalid : now ≤ t) :
    (c.get k now).1 = some true := by
  simp [LookupCache.get, LruCache.get_mut, hfound, hvalid]

/-- Positive round trip: `insert_pos` then `get` at the same instant
yields `Some(true)` when the positive structure's capacity is at least
1. -/
theorem roundtrip_pos {K : Type} [DecidableEq K] (c : LookupCache K) (k : K)
    (now : Nat) (hcap : 1 ≤ c.cache_pos.capacity) :
    ((c.insert_pos k now).get k now).1 = some true := by
  apply get_of_pos_valid _ _ (now + c.ttl_pos)
  · exact lruLookup_insert_self _ _ _ hcap
  · omega

/-- Negative round trip: `insert_neg` then `get` at the same instant
yields `Some(false)` when the key is absent from the positive structure
and the negative structure's capacity is at least 1. -/
theorem roundtrip_neg {K : Type} [DecidableEq K] (c : LookupCache K) (k : K)
    (now : Nat) (hcap : 1 ≤ c.cache_neg.capacity)
    (habsent : lruLookup c.cache_pos.entries k = none) :
    ((c.insert_neg k now).get k now).1 = some false := by
  have hins : lruLookup (c.insert_neg k now).cache_neg.entries k = some (now + c.ttl_neg) :=
    lruLookup_insert_self _ _ _ hcap
  simp [LookupCache.insert_neg] at hins
  simp [LookupCache.get, LookupCache.getNeg, LruCache.get_mut, LookupCache.insert_neg,
    habsent, hins]

/-- C1: on a `get` that finds an expired entry, the positive half behaves
as the claim states (the expired positive entry is evicted from the
positive structure and the verdict is `None`), but the negative half does
not: with an expired entry for key 0 in the negative structure, `get`
returns `None` yet the entry is still present in the negative structure
afterwards — line 132 of `cache.rs` removes the key from `cache_pos`, not
from `cache_neg`. -/
theorem get_expired_negative_entry_not_evicted :
    (((⟨⟨10, [(0, 0)]⟩, ⟨10, []⟩, 5, 5⟩ : LookupCache Nat).get 0 1).1 = none
      ∧ (((⟨⟨10, [(0, 0)]⟩, ⟨10, []⟩, 5, 5⟩ : LookupCache Nat).get 0 1).2.cache_pos.containsKey 0
          = false))
    ∧ (((⟨⟨10, []⟩, ⟨10, [(0, 0)]⟩, 5, 5⟩ : LookupCache Nat).get 0 1).1 = none
      ∧ (((⟨⟨10, []⟩, ⟨10, [(0, 0)]⟩, 5, 5⟩ : LookupCache Nat).get 0 1).2.cache_neg.containsKey 0
          = true)) := by
  decide

/-- C2: with `cache.entries = 10`, `cache.ttl.positive = 100` and
`cache.ttl.negative = 7` all present, `try_from_config` produces caches
whose negative TTL is 100, not 7: lines 57-59 of `cache.rs` read the key
`cache.ttl.positive` a second time instead of `cache.ttl.negative`. -/
theorem try_from_config_reads_positive_ttl_key_twice :
    ∃ d, CachedDirectory.try_from_config
        ⟨fun key =>
          if key = "cache.entries" then .ok (some 10)
          else if key = "cache.ttl.positive" then .ok (some 100)
          else if key = "cache.ttl.negative" then .ok (some 7)
          else .ok none⟩ = .ok (some d)
      ∧ d.cached_domains.ttl_pos = 100
      ∧ d.cached_domains.ttl_neg = 100
      ∧ d.cached_domains.ttl_neg ≠ 7 := by
  refine ⟨⟨LookupCache.new String 10 100 100, LookupCache.new String 10 100 100⟩, ?_, rfl, rfl, ?_⟩
  · rfl
  · decide

/-- C3, counterexample to the claim as stated: a `LookupCache` built by
`LookupCache::new` with capacity 0 and both TTLs positive violates the
round trip — the LRU bound evicts the entry the moment it is inserted, so
`insert_pos(k)` immediately followed by `get(k)` returns `None`, not
`Some(true)`. -/
theorem cache_roundtrip_fails_at_capacity_zero :
    (((LookupCache.new Nat 0 1 1).insert_pos 0 0).get 0 0).1 = none := by
  decide

/-- C3, amended: for every key and every `LookupCache` whose structures
have capacity at least 1 and whose TTLs are positive, `insert_pos(k)`
immediately followed by `get(k)` returns `Some(true)`, and `insert_neg(k)`
immediately followed by `get(k)` returns `Some(false)` when `k` is absent
from the positive structure. -/
theorem cache_roundtrip_within_ttl {K : Type} [DecidableEq K] (c : LookupCache K)
    (k : K) (now : Nat) (hposcap : 1 ≤ c.cache_pos.capacity)
    (hnegcap : 1 ≤ c.cache_neg.capacity)
    (_hp : 0 < c.ttl_pos) (_hn : 0 < c.ttl_neg) :
    ((c.insert_pos k now).get k now).1 = some true
    ∧ (lruLookup c.cache_pos.entries k = none →
        ((c.insert_neg k now).get k now).1 = some false) :=
  ⟨roundtrip_pos c k now hposcap, fun habsent => roundtrip_neg c k now hnegcap habsent⟩

/-- C3, witness: the amended round trip at capacity 1, TTLs 1, key 0,
instant 0. -/
theorem cache_roundtrip_within_ttl_witness :
    (((LookupCache.new Nat 1 1 1).insert_pos 0 0).get 0 0).1 = some true
    ∧ (((LookupCache.new Nat 1 1 1).insert_neg 0 0).get 0 0).1 = some false :=
  ⟨(cache_roundtrip_within_ttl (LookupCache.new Nat 1 1 1) 0 0 (by decide) (by decide)
      (by decide) (by decide)).1,
   (cache_roundtrip_within_ttl (LookupCache.new Nat 1 1 1) 0 0 (by decide) (by decide)
      (by decide) (by decide)).2 (by decide)⟩

/-- C4: `get` consults the positive structure first unconditionally: a key
present and unexpired in the positive structure yields `Some(true)` for
any contents of the negative structure; in particular a negative verdict
inserted after a still-valid positive one is not observed while the
positive entry is unexpired. -/
theorem get_checks_positive_first {K : Type} [DecidableEq K] (c : LookupCache K)
    (k : K) (now : Nat) :
    (∀ t, lruLookup c.cache_pos.entries k = some t → now ≤ t →
        (c.get k now).1 = some true)
    ∧ (∀ n0 n1, 1 ≤ c.cache_pos.capacity → now ≤ n0 + c.ttl_pos →
        (((c.insert_pos k n0).insert_neg k n1).get k now).1 = some true) := by
  constructor
  · intro t hfound hvalid
    exact get_of_pos_valid c k t now hfound hvalid
  · intro n0 n1 hcap hvalid
    apply get_of_pos_valid _ _ (n0 + c.ttl_pos) _ (lruLookup_insert_self _ _ _ hcap) hvalid

/-- C4, witness: a still-valid positive entry for key 0 masks a fresh
negative entry for the same key; and an explicit
`insert_pos`-then-`insert_neg` sequence still answers `Some(true)`. -/
theorem get_checks_positive_first_witness :
    ((⟨⟨1, [(0, 5)]⟩, ⟨1, [(0, 99)]⟩, 4, 4⟩ : LookupCache Nat).get 0 3).1 = some true
    ∧ ((((LookupCache.new Nat 1 9 9).insert_pos 0 0).insert_neg 0 1).get 0 2).1 = some true :=
  ⟨(get_checks_positive_first (⟨⟨1, [(0, 5)]⟩, ⟨1, [(0, 99)]⟩, 4, 4⟩ : LookupCache Nat) 0 3).1
      5 (by decide) (by decide),
   (get_checks_positive_first (LookupCache.new Nat 1 9 9) 0 2).2 0 1 (by decide) (by decide)⟩

/-- C5: for each of the five `QueryResult` adapter types, the conversion
matching the type's declared `query_type` returns a value on every input,
and every other conversion diverges (`unreachable!`, modelled as `none`)
on every input. -/
theorem queryResult_conversion_matches_declared_intent :
    ∀ (n : Nat) (b : Bool) (d : IntoRowsData),
      (optionRowQueryResult.query_type = QueryType.queryOne
        ∧ optionRowQueryResult.from_query_one d = some d.into_row
        ∧ optionRowQueryResult.from_exec n = none
        ∧ optionRowQueryResult.from_exists b = none
        ∧ optionRowQueryResult.from_query_all d = none)
      ∧ (rowsQueryResult.query_type = QueryType.queryAll
        ∧ rowsQueryResult.from_query_all d = some d.into_rows
        ∧ rowsQueryResult.from_exec n = none
        ∧ rowsQueryResult.from_exists b = none
        ∧ rowsQueryResult.from_query_one d = none)
      ∧ (namedRowsQueryResult.query_type = QueryType.queryAll
        ∧ namedRowsQueryResult.from_query_all d = some d.into_named_rows
        ∧ namedRowsQueryResult.from_exec n = none
        ∧ namedRowsQueryResult.from_exists b = none
        ∧ namedRowsQueryResult.from_query_one d = none)
      ∧ (boolQueryResult.query_type = QueryType.queryExists
        ∧ boolQueryResult.from_exists b = some b
        ∧ boolQueryResult.from_exec n = none
        ∧ boolQueryResult.from_query_all d = none
        ∧ boolQueryResult.from_query_one d = none)
      ∧ (usizeQueryResult.query_type = QueryType.execute
        ∧ usizeQueryResult.from_exec n = some n
        ∧ usizeQueryResult.from_exists b = none
        ∧ usizeQueryResult.from_query_all d = none
        ∧ usizeQueryResult.from_query_one d = none) :=
  fun _ _ _ =>
    ⟨⟨rfl, rfl, rfl, rfl, rfl⟩, ⟨rfl, rfl, rfl, rfl, rfl⟩, ⟨rfl, rfl, rfl, rfl, rfl⟩,
     ⟨rfl, rfl, rfl, rfl, rfl⟩, ⟨rfl, rfl, rfl, rfl, rfl⟩⟩

/-- C6: the six subspace tag constants are pairwise distinct single bytes,
and serializing two keys with their (distinct) subspace tags included
yields unequal byte strings whatever the other field bytes are. -/
theorem subspace_tags_distinct_and_disjoint :
    subspaceTags.Pairwise (fun a b => a ≠ b)
    ∧ (∀ t ∈ subspaceTags, t < 256)
    ∧ (∀ t1 t2 f1 f2, t1 ≠ t2 →
        serializeWithSubspace t1 f1 ≠ serializeWithSubspace t2 f2) := by
  refine ⟨by decide, by decide, ?_⟩
  intro t1 t2 f1 f2 hne heq
  simp only [serializeWithSubspace, List.cons.injEq] at heq
  exact hne heq.1

/-- C6, witness: the bitmaps tag is a single byte, and a bitmaps-subspace
key and a values-subspace key with identical field bytes serialize to
different byte strings. -/
theorem subspace_tags_distinct_and_disjoint_witness :
    SUBSPACE_BITMAPS < 256
    ∧ serializeWithSubspace SUBSPACE_BITMAPS [1, 2]
        ≠ serializeWithSubspace SUBSPACE_VALUES [1, 2] :=
  ⟨subspace_tags_distinct_and_disjoint.2.1 SUBSPACE_BITMAPS (by decide),
   subspace_tags_distinct_and_disjoint.2.2 SUBSPACE_BITMAPS SUBSPACE_VALUES [1, 2] [1, 2]
      (by decide)⟩

/-- C7: the `Row → Vec<String>` projection is total with exactly one
string per cell; the `Row → Vec<u32>` projection keeps each `Integer` cell
(converted with `as u32`) in column order and silently drops every cell of
any other variant. -/
theorem row_projections_total_and_lossy (vs : List Value) (i : Int) (v : Value) :
    (Row.toStringVec ⟨vs⟩).length = vs.length
    ∧ Row.toU32Vec ⟨Value.integer i :: vs⟩ = i64AsU32 i :: Row.toU32Vec ⟨vs⟩
    ∧ (v.isInteger = false → Row.toU32Vec ⟨v :: vs⟩ = Row.toU32Vec ⟨vs⟩) := by
  refine ⟨?_, ?_, ?_⟩
  · simp [Row.toStringVec]
  · simp [Row.toU32Vec]
  · intro hv
    cases v <;> simp_all [Row.toU32Vec, Value.isInteger]

/-- C7, witness: a `Bool` cell is dropped by the integer projection, an
`Integer` cell is kept, and the string projection of a two-cell row has
two entries. -/
theorem row_projections_total_and_lossy_witness :
    (Row.toStringVec ⟨[Value.null]⟩).length = 1
    ∧ Row.toU32Vec ⟨[Value.integer 7, Value.null]⟩ = i64AsU32 7 :: Row.toU32Vec ⟨[Value.null]⟩
    ∧ Row.toU32Vec ⟨[Value.bool true, Value.null]⟩ = Row.toU32Vec ⟨[Value.null]⟩ :=
  ⟨(row_projections_total_and_lossy [Value.null] 7 (Value.bool true)).1,
   (row_projections_total_and_lossy [Value.null] 7 (Value.bool true)).2.1,
   (row_projections_total_and_lossy [Value.null] 7 (Value.bool true)).2.2 rfl⟩

/-- C8, counterexample to the claim as stated: a configuration in which
the capacity option is present (`cache.entries = 10`) but the TTL
property lookup fails does not return `Ok(Some(_))` — the parse error
propagates through `?` (`cache.rs`, lines 54-58) and `try_from_config`
returns `Err`. -/
theorem try_from_config_errs_when_ttl_lookup_fails :
    CachedDirectory.try_from_config
      ⟨fun key =>
        if key = "cache.entries" then .ok (some 10)
        else .error "invalid duration"⟩
    = .error "invalid duration" := by
  rfl

/-- C8, amended: `try_from_config` returns `Ok(None)` exactly when the
`cache.entries` capacity option is absent; when the capacity parses to a
value `n` and the TTL property lookup the code performs succeeds, it
returns `Ok(Some(_))` with all four LRU structures, in both the domain
cache and the recipient cache, built at capacity `n` (a failing property
lookup instead propagates as `Err`). -/
theorem try_from_config_none_iff_capacity_absent (cfg : Config) :
    (CachedDirectory.try_from_config cfg = .ok none
      ↔ cfg.property "cache.entries" = .ok none)
    ∧ (∀ n r, cfg.property "cache.entries" = .ok (some n) →
        cfg.property "cache.ttl.positive" = .ok r →
        ∃ d, CachedDirectory.try_from_config cfg = .ok (some d)
          ∧ d.cached_domains.cache_pos.capacity = n
          ∧ d.cached_domains.cache_neg.capacity = n
          ∧ d.cached_rcpts.cache_pos.capacity = n
          ∧ d.cached_rcpts.cache_neg.capacity = n) := by
  constructor
  · cases h : cfg.property "cache.entries" with
    | error e => simp [CachedDirectory.try_from_config, h]
    | ok o =>
      cases o with
      | none => simp [CachedDirectory.try_from_config, h]
      | some n =>
        cases h2 : cfg.property "cache.ttl.positive" with
        | error e => simp [CachedDirectory.try_from_config, h, h2]
        | ok r => simp [CachedDirectory.try_from_config, h, h2]
  · intro n r h1 h2
    refine ⟨⟨LookupCache.new String n (r.getD 86400) (r.getD 3600),
             LookupCache.new String n (r.getD 86400) (r.getD 3600)⟩, ?_, rfl, rfl, rfl, rfl⟩
    simp [CachedDirectory.try_from_config, h1, h2]

/-- C8, witness: a configuration with every key absent yields `Ok(None)`;
one in which every key parses to 3 yields `Ok(Some(_))` with all four LRU
structures at capacity 3. -/
theorem try_from_config_none_iff_capacity_absent_witness :
    CachedDirectory.try_from_config ⟨fun _ => .ok none⟩ = .ok none
    ∧ ∃ d, CachedDirectory.try_from_config ⟨fun _ => .ok (some 3)⟩ = .ok (some d)
        ∧ d.cached_domains.cache_pos.capacity = 3
        ∧ d.cached_domains.cache_neg.capacity = 3
        ∧ d.cached_rcpts.cache_pos.capacity = 3
        ∧ d.cached_rcpts.cache_neg.capacity = 3 :=
  ⟨(try_from_config_none_iff_capacity_absent ⟨fun _ => .ok none⟩).1.mpr rfl,
   (try_from_config_none_iff_capacity_absent ⟨fun _ => .ok (some 3)⟩).2 3 (some 3) rfl rfl⟩

/-- C9: the `LookupKey → String` conversion is total and erases the key's
polarity — `Key(b)` and `Counter(b)` convert to the same text for every
byte sequence `b` — and a byte sequence that is not valid UTF-8 (here
`[0xFF, 0x61]`) is converted lossily (to U+FFFD followed by `a`) rather
than failing. -/
theorem lookup_key_to_string_total_and_erases_polarity :
    (∀ b : List Nat, lookupKeyToText (.key b) = lookupKeyToText (.counter b))
    ∧ lookupKeyToText (.key [255, 97]) = [65533, 97] := by
  constructor
  · intro b
    rfl
  · simp [lookupKeyToText, utf8DecodeStrict, utf8DecodeLossy, utf8Step, utf8IsCont,
      utf8Cont3Valid, utf8Cont4Valid]

/-- C10: an `Integer` cell whose value lies outside `[0, 2^32)` is not
dropped by the `Row → Vec<u32>` and `Rows → Vec<u32>` projections: it is
kept truncated modulo `2^32` (`-1` wraps to `4294967295`, `2^32 + 5` to
`5`, `2^33 + 7` to `7`), while non-`Integer` cells are filtered out. -/
theorem integer_cells_wrap_modulo_two_pow_32 :
    Row.toU32Vec ⟨[Value.integer (-1), Value.bool true, Value.integer 4294967301, Value.null]⟩
      = [4294967295, 5]
    ∧ Rows.toU32Vec ⟨[⟨[Value.integer (-1)]⟩, ⟨[Value.integer 8589934599, Value.text "x"]⟩]⟩
      = [4294967295, 7] := by
  decide

end StalwartStore
